import Mathlib

/-!
Verification of the artifact-parsing and template-synthesis engine of
scripts/generate-proof.py (class ProofGenerator).

Texts are modelled as `List Char`.  Every Python regular expression used by
the script is deterministic up to the usual leftmost-match rule (each greedy
or lazy quantifier in those patterns admits a unique successful extent, shown
case by case in the comments below), so each `re.search`/`re.sub`/`re.findall`
call is embedded as an executable scanner over character lists.  The regex
character classes are modelled over ASCII (the artifacts the script parses are
ASCII build logs).  Python `float(...)` applied to the strings captured by
`[\d.]+` is modelled exactly as a decimal number, represented as a pair
(numerator, number-of-fraction-digits); `float` parsing raises `ValueError`
exactly when the captured string is not digits-dot-digits with at least one
digit and at most one dot, which the model returns as `none`.

Missing gate files (`gate_file.exists()` being false) are modelled by giving
every extractor an `Option (List Char)` argument, `none` meaning the file is
absent.  `datetime.now().strftime("%Y-%m-%d")` is modelled as an explicit
`today` argument of the synthesis entry point.
-/

set_option maxRecDepth 65536

namespace ProofGen

/-- Python regex `\s` over ASCII: space, tab, newline, carriage return,
form feed and vertical tab. -/
def isPySpace (c : Char) : Bool :=
  c == ' ' || c == '\t' || c == '\n' || c == '\r' || c == '\x0b' || c == '\x0c'

/-- Python regex `\d` over ASCII. -/
def isPyDigit (c : Char) : Bool := c.isDigit

/-- Python regex class `[\d.]`. -/
def isCovChar (c : Char) : Bool := c.isDigit || c == '.'

/-- ASCII uppercase conversion of one character (identity elsewhere). -/
def asciiUpper (c : Char) : Char :=
  if c.isLower then Char.ofNat (c.toNat - 32) else c

/-- ASCII lowercase conversion of one character (identity elsewhere); model of
Python `str.lower()` on the ASCII range. -/
def asciiLower (c : Char) : Char :=
  if c.isUpper then Char.ofNat (c.toNat + 32) else c

/-- Model of Python `content.lower()`. -/
def lowerStr (s : List Char) : List Char := s.map asciiLower

/-- Numeric value of a decimal digit string, model of reading the digits of a
captured group. -/
def natOfDigits (s : List Char) : Nat :=
  s.foldl (fun a c => a * 10 + (c.toNat - 48)) 0

/-- Decimal rendering helper (fuel-driven; `natToChars` supplies enough fuel). -/
def natToCharsAux : Nat → Nat → List Char → List Char
  | 0, _, acc => acc
  | fuel + 1, n, acc =>
    let d := Char.ofNat (48 + n % 10)
    if n < 10 then d :: acc else natToCharsAux fuel (n / 10) (d :: acc)

/-- Model of Python `str(n)` for a natural number. -/
def natToChars (n : Nat) : List Char := natToCharsAux (n + 1) n []

/-- Model of Python `str(i)` for an integer. -/
def intToChars (i : Int) : List Char :=
  if i < 0 then '-' :: natToChars i.natAbs else natToChars i.toNat

/-- Leftmost index at which `pat` occurs as a contiguous sublist, the index
part of Python's `in` / `str.find`. -/
def findOccur (pat : List Char) : List Char → Option Nat
  | [] => if pat.isEmpty then some 0 else none
  | c :: cs =>
    if pat.isPrefixOf (c :: cs) then some 0
    else (findOccur pat cs).map (· + 1)

/-- Model of the Python substring test `pat in s`. -/
def containsSub (pat s : List Char) : Bool := (findOccur pat s).isSome

/-- Case-insensitive prefix test against an uppercase pattern; model of the
position-wise test done by `re.IGNORECASE` matching of a literal. -/
def isPrefixCI : List Char → List Char → Bool
  | [], _ => true
  | _ :: _, [] => false
  | p :: ps, c :: cs => (asciiUpper c == p) && isPrefixCI ps cs

/-- Generic leftmost `re.search` driver: try the matcher at every suffix, from
the left. -/
def scanFirst {α : Type} (m : List Char → Option α) : List Char → Option α
  | [] => m []
  | c :: cs =>
    match m (c :: cs) with
    | some x => some x
    | none => scanFirst m cs

/-- Consume a literal. -/
def dropLit (lit s : List Char) : Option (List Char) :=
  if lit.isPrefixOf s then some (s.drop lit.length) else none

/-- Consume `\s+` (greedy; the run is uniquely determined because every
continuation in the embedded patterns starts with a non-space character). -/
def dropWs1 (s : List Char) : Option (List Char) :=
  let p := s.span isPySpace
  if p.1.isEmpty then none else some p.2

/-- Consume `(\d+)` (greedy; uniquely determined because no continuation in
the embedded patterns starts with a digit). -/
def takeDigits1 (s : List Char) : Option (List Char × List Char) :=
  let p := s.span isPyDigit
  if p.1.isEmpty then none else some (p.1, p.2)

/-- Match `lit\s+(\d+)` at the head of `s`, returning the captured digits;
used for `Passed:`, `Total:`, `Failed:`. -/
def matchLitWsDigitsHere (lit : List Char) (s : List Char) : Option (List Char) :=
  (dropLit lit s).bind fun r1 =>
  (dropWs1 r1).bind fun r2 =>
  (takeDigits1 r2).map Prod.fst

/-- Model of `re.search(r'lit\s+(\d+)', content).group(1)`. -/
def searchLWD (lit content : List Char) : Option (List Char) :=
  scanFirst (matchLitWsDigitsHere lit) content

/-- Match `(\d+)lit` at the head of `s`; used for `(\d+) Warning\(s\)` and
`(\d+) Error\(s\)`. -/
def matchDigitsLitHere (lit : List Char) (s : List Char) : Option (List Char) :=
  let p := s.span isPyDigit
  if p.1.isEmpty then none
  else if lit.isPrefixOf p.2 then some p.1 else none

/-- Model of `re.search(r'(\d+)lit', content).group(1)`. -/
def searchDL (lit content : List Char) : Option (List Char) :=
  scanFirst (matchDigitsLitHere lit) content

def passedLit : List Char := "Passed:".toList
def totalLit : List Char := "Total:".toList
def failedLit : List Char := "Failed:".toList
def testsLit : List Char := "Tests:".toList
def passedCommaLit : List Char := "passed,".toList
def totalWordLit : List Char := "total".toList
def lineCovLit : List Char := "Line coverage:".toList
def allFilesLit : List Char := "All files".toList
def warnLit : List Char := " Warning(s)".toList
def errLit : List Char := " Error(s)".toList
def errorWordLit : List Char := "error".toList
def zeroErrorsLit : List Char := "0 errors".toList
def noVulnPkgsLit : List Char := "no vulnerable packages".toList
def zeroVulnsLit : List Char := "0 vulnerabilities".toList
def highLit : List Char := "HIGH".toList
def moderateLit : List Char := "MODERATE".toList
def criticalLit : List Char := "CRITICAL".toList
def zeroStr : List Char := "0".toList
def passStatus : List Char := "✅ PASS".toList
def failStatus : List Char := "❌ FAIL".toList
def statusPh : List Char := "[STATUS]".toList
def nnPh : List Char := "[N/N]".toList
def xxPh : List Char := "[XX%]".toList
def nPh : List Char := "[N]".toList
def pctStr : List Char := "%".toList
def slashStr : List Char := "/".toList

/-- Match `Tests:\s+(\d+)\s+passed,\s+(\d+)\s+total` at the head of `s`
(TypeScript test-count phrase). -/
def matchTestsBHere (s : List Char) : Option (List Char × List Char) :=
  (dropLit testsLit s).bind fun r1 =>
  (dropWs1 r1).bind fun r2 =>
  (takeDigits1 r2).bind fun pr1 =>
  (dropWs1 pr1.2).bind fun r4 =>
  (dropLit passedCommaLit r4).bind fun r5 =>
  (dropWs1 r5).bind fun r6 =>
  (takeDigits1 r6).bind fun pr2 =>
  (dropWs1 pr2.2).bind fun r8 =>
  (dropLit totalWordLit r8).map fun _ => (pr1.1, pr2.1)

/-- Match `Line coverage:\s+([\d.]+)%` at the head of `s`.  The greedy
`[\d.]+` run is unique: a shorter run would leave a class character where `%`
is required. -/
def matchLineCovHere (s : List Char) : Option (List Char) :=
  (dropLit lineCovLit s).bind fun r1 =>
  (dropWs1 r1).bind fun r2 =>
  let p := r2.span isCovChar
  if p.1.isEmpty then none
  else if p.2.head? == some '%' then some p.1 else none

/-- Consume `([\d.]+)` (greedy, at the end of its pattern, so the maximal
class run is captured). -/
def takeCovChars1 (s : List Char) : Option (List Char × List Char) :=
  let p := s.span isCovChar
  if p.1.isEmpty then none else some (p.1, p.2)

/-- Lazy tail `.*?\|\s+([\d.]+)` of the `All files` pattern, with `.` not
matching newline: advance over non-newline characters to each `|` in turn and
accept the first one followed by `\s+[\d.]+`. -/
def matchPipeWsNum : List Char → Option (List Char)
  | [] => none
  | c :: cs =>
    if c == '|' then
      match (dropWs1 cs).bind takeCovChars1 with
      | some pr => some pr.1
      | none => matchPipeWsNum cs
    else if c == '\n' then none
    else matchPipeWsNum cs

/-- Match `All files.*?\|\s+([\d.]+)` at the head of `s`. -/
def matchAllFilesHere (s : List Char) : Option (List Char) :=
  (dropLit allFilesLit s).bind matchPipeWsNum

/-- Case-insensitive severity-token counter, model of
`len(re.findall(r'(HIGH|MODERATE|CRITICAL)', content, re.IGNORECASE))`:
non-overlapping leftmost matches, alternatives tried in order.  Fuel-driven;
each step consumes at least one character, so `length + 1` fuel suffices. -/
def countSeverityF : Nat → List Char → Nat
  | 0, _ => 0
  | _ + 1, [] => 0
  | fuel + 1, c :: cs =>
    if isPrefixCI highLit (c :: cs) then
      1 + countSeverityF fuel ((c :: cs).drop highLit.length)
    else if isPrefixCI moderateLit (c :: cs) then
      1 + countSeverityF fuel ((c :: cs).drop moderateLit.length)
    else if isPrefixCI criticalLit (c :: cs) then
      1 + countSeverityF fuel ((c :: cs).drop criticalLit.length)
    else countSeverityF fuel cs

def countSeverity (s : List Char) : Nat := countSeverityF (s.length + 1) s

/-- Model of Python `float(s)` for strings drawn from the class `[\d.]+`:
`some (num, k)` denotes the decimal value num / 10^k; `none` models the
`ValueError` raised when `s` has no digit or more than one dot. -/
def parseDecimal? (s : List Char) : Option (Nat × Nat) :=
  let p := s.span isPyDigit
  match p.2 with
  | [] => if p.1.isEmpty then none else some (natOfDigits p.1, 0)
  | '.' :: b =>
    if b.all isPyDigit && !(p.1.isEmpty && b.isEmpty) then
      some (natOfDigits p.1 * 10 ^ b.length + natOfDigits b, b.length)
    else none
  | _ => none

/-- Declared tech-stack variant (`--tech dotnet|typescript`). -/
inductive Tech where
  | dotnet
  | typescript
deriving DecidableEq

/-- Model of `self.tech_stack.upper()`. -/
def techUpper : Tech → List Char
  | Tech.dotnet => "DOTNET".toList
  | Tech.typescript => "TYPESCRIPT".toList

structure TestMetrics where
  passed : List Char
  total : List Char
  failed : List Char
  status : List Char
deriving DecidableEq

structure BuildMetrics where
  warnings : Option (List Char)
  errors : Option (List Char)
  status : List Char
deriving DecidableEq

/-- Embedding of `ProofGenerator.extract_test_results`.  The `none` file case
models `gate-5-tests.txt` being absent. -/
def extract_test_results (tech : Tech) (file : Option (List Char)) : Option TestMetrics :=
  match file with
  | none => none
  | some content =>
    match tech with
    | Tech.dotnet =>
      match searchLWD passedLit content, searchLWD totalLit content with
      | some p, some t =>
        let f := (searchLWD failedLit content).getD zeroStr
        some ⟨p, t, f, if f = zeroStr then passStatus else failStatus⟩
      | some _, none => none
      | none, _ => none
    | Tech.typescript =>
      match scanFirst matchTestsBHere content with
      | some pr => some ⟨pr.1, pr.2, zeroStr, passStatus⟩
      | none => none

/-- Embedding of `ProofGenerator.extract_coverage`. -/
def extract_coverage (file : Option (List Char)) : Option (List Char) :=
  match file with
  | none => none
  | some content =>
    match scanFirst matchLineCovHere content with
    | some x => some x
    | none => scanFirst matchAllFilesHere content

/-- Embedding of `ProofGenerator.extract_build_info`. -/
def extract_build_info (tech : Tech) (file : Option (List Char)) : Option BuildMetrics :=
  match file with
  | none => none
  | some content =>
    match tech with
    | Tech.dotnet =>
      match searchDL warnLit content, searchDL errLit content with
      | some w, some e =>
        some ⟨some w, some e, if w = zeroStr then passStatus else failStatus⟩
      | some _, none => none
      | none, _ => none
    | Tech.typescript =>
      if containsSub errorWordLit (lowerStr content)
          && !containsSub zeroErrorsLit (lowerStr content) then
        some ⟨none, none, failStatus⟩
      else
        some ⟨none, none, passStatus⟩

/-- Embedding of `ProofGenerator.extract_vulnerabilities`.  Note the asymmetry
taken straight from the source: the `no vulnerable packages` phrase is tested
against `content.lower()` while `0 vulnerabilities` is tested against
`content` itself. -/
def extract_vulnerabilities (file : Option (List Char)) : Option (List Char) :=
  match file with
  | none => none
  | some content =>
    if containsSub noVulnPkgsLit (lowerStr content) || containsSub zeroVulnsLit content then
      some zeroStr
    else
      some (natToChars (countSeverity content))

/-! ### Summary composer (`generate_stage_summary`) -/

/-- Local `test_str` of `generate_stage_summary`:
`f"{tests['passed']}/{tests['total']}" if tests else "[N/N]"`. -/
def test_str (tests : Option TestMetrics) : List Char :=
  match tests with
  | some t => t.passed ++ slashStr ++ t.total
  | none => nnPh

/-- Local `test_status`: `tests['status'] if tests else "[STATUS]"`. -/
def test_status (tests : Option TestMetrics) : List Char :=
  match tests with
  | some t => t.status
  | none => statusPh

/-- Actual-column cell of the Test Failures row:
`tests['failed'] if tests else '0'`. -/
def failedCell (tests : Option TestMetrics) : List Char :=
  match tests with
  | some t => t.failed
  | none => zeroStr

/-- Local `coverage_str`: `f"{coverage}%" if coverage else "[XX%]"`. -/
def coverage_str (coverage : Option (List Char)) : List Char :=
  match coverage with
  | some c => c ++ pctStr
  | none => xxPh

/-- Local `coverage_status`:
`"✅ PASS" if coverage and float(coverage) >= 90 else "❌ FAIL" if coverage
else "[STATUS]"`.  `none` models the `ValueError` that `float` raises on a
captured string such as `"..."`; the decimal comparison
`90 * 10^k ≤ num` is exactly `float(coverage) >= 90` on the decimal value
num / 10^k. -/
def coverage_status (coverage : Option (List Char)) : Option (List Char) :=
  match coverage with
  | none => some statusPh
  | some c =>
    match parseDecimal? c with
    | none => none
    | some p => some (if 90 * 10 ^ p.2 ≤ p.1 then passStatus else failStatus)

/-- Local `build_str`: `build['status'] if build else "[STATUS]"`. -/
def build_str (build : Option BuildMetrics) : List Char :=
  match build with
  | some b => b.status
  | none => statusPh

/-- Actual-column cell of the Build Warnings row:
`build['warnings'] if build and 'warnings' in build else '0'`. -/
def warningsCell (build : Option BuildMetrics) : List Char :=
  match build with
  | some b =>
    match b.warnings with
    | some w => w
    | none => zeroStr
  | none => zeroStr

/-- Local `vuln_str`: `vulnerabilities if vulnerabilities else "[N]"`. -/
def vuln_str (vulnerabilities : Option (List Char)) : List Char :=
  vulnerabilities.getD nPh

/-- Local `vuln_status`:
`"✅ PASS" if vulnerabilities == "0" else "❌ FAIL" if vulnerabilities else
"[STATUS]"`. -/
def vuln_status (vulnerabilities : Option (List Char)) : List Char :=
  match vulnerabilities with
  | some v => if v = zeroStr then passStatus else failStatus
  | none => statusPh

def tableHeader : List Char :=
  "| Metric | Target | Actual | Status |\n|--------|--------|--------|--------|\n".toList
def rowTestsA : List Char := "| Tests Passing | 100% | ".toList
def rowFailA : List Char := "| Test Failures | 0 | ".toList
def rowCovA : List Char := "| Code Coverage | ≥90% | ".toList
def rowBuildA : List Char := "| Build Warnings | 0 | ".toList
def rowVulnA : List Char := "| Vulnerabilities | 0 | ".toList
def rowDeliv : List Char := "| Deliverables | [N/N] | [N/N] | [✅/❌] |".toList
def cellSep : List Char := " | ".toList
def rowEnd : List Char := " |\n".toList

/-- Embedding of `ProofGenerator.generate_stage_summary`.  The four arguments
are the contents of the tests, coverage, build and security gate files
(`none` = file absent).  The result is `none` exactly when evaluating the
`coverage_status` line raises `ValueError` in the source. -/
def generate_stage_summary (tech : Tech)
    (testsTxt covTxt buildTxt vulnTxt : Option (List Char)) : Option (List Char) :=
  let tests := extract_test_results tech testsTxt
  let coverage := extract_coverage covTxt
  let build := extract_build_info tech buildTxt
  let vulnerabilities := extract_vulnerabilities vulnTxt
  match coverage_status coverage with
  | none => none
  | some covStat =>
    some (tableHeader
      ++ rowTestsA ++ test_str tests ++ cellSep ++ test_status tests ++ rowEnd
      ++ rowFailA ++ failedCell tests ++ cellSep ++ test_status tests ++ rowEnd
      ++ rowCovA ++ coverage_str coverage ++ cellSep ++ covStat ++ rowEnd
      ++ rowBuildA ++ warningsCell build ++ cellSep ++ build_str build ++ rowEnd
      ++ rowVulnA ++ vuln_str vulnerabilities ++ cellSep ++ vuln_status vulnerabilities ++ rowEnd
      ++ rowDeliv)

/-! ### Stage guidance (`_get_stage_specific_guidance`) and review composer -/

structure Guidance where
  risks : List Char
  next_stage : List Char
deriving DecidableEq

def foundationGuidance : Guidance :=
  ⟨("- **Architecture Debt**: Are abstractions too early or too late? Over-engineering vs under-engineering?\n- **Interface Stability**: Will these models/interfaces change in later stages? Breaking changes cascade.\n- **Type Safety**: Are domain models strongly typed? Primitive obsession (strings everywhere) causes bugs.\n- **Missing Validation**: Are inputs validated at boundaries? Trust but verify all external data.\n- **Naming Clarity**: Do names reveal intent? Future developers will curse unclear naming.").toList,
   ("- **Integration Points**: Next stage will depend on these interfaces. Any changes will cascade.\n- **Data Model Assumptions**: Document assumptions about data shapes, nullability, cardinality.\n- **Error Handling Strategy**: Establish patterns now (exceptions vs result types, error codes).\n- **Testing Strategy**: Are tests brittle or resilient? Will they break on refactoring?").toList⟩

def executionGuidance : Guidance :=
  ⟨("- **Concurrency Issues**: Race conditions? Deadlocks? Thread safety verified?\n- **Resource Leaks**: Are connections/handles properly disposed? Using statements? Try-finally?\n- **Retry Logic**: Exponential backoff implemented? Retry storms prevented?\n- **Timeout Handling**: All network calls have timeouts? Graceful degradation on timeout?\n- **Error Recovery**: Partial failures handled? What happens when 1 of 10 tasks fails?").toList,
   ("- **Performance Baseline**: Benchmark current performance. Next stages add complexity - track regressions.\n- **Observability Gaps**: Can you debug production issues? Add logging/metrics before scaling.\n- **Configuration Management**: Hard-coded values? Extract to config for different environments.\n- **Load Testing**: Current code handles 1 workflow. Will it handle 100 concurrent? 1000?").toList⟩

def hardeningGuidance : Guidance :=
  ⟨("- **API Breaking Changes**: Versioning strategy? Can old clients still work?\n- **Security Gaps**: Input sanitization? SQL injection? XSS? CSRF protection?\n- **Performance at Scale**: Load tested? Memory leaks? Connection pool exhaustion?\n- **Data Migration**: Schema changes backward compatible? Migration strategy documented?\n- **User Experience**: Error messages helpful? Loading states? Accessibility?").toList,
   ("- **Production Readiness**: Logging, monitoring, alerting in place? On-call runbook exists?\n- **Rollback Strategy**: Can you roll back if this fails in prod? Feature flags? Blue-green deploy?\n- **Documentation**: API docs updated? Architecture diagrams current? Onboarding guide written?\n- **Technical Debt**: List debt accumulated. Plan to pay it down before it compounds.").toList⟩

/-- Embedding of `ProofGenerator._get_stage_specific_guidance`.  The source
ends with a dict literal after the if/elif/else chain; that fallback is dead
code (the chain always returns) and is therefore not part of the function's
behaviour. -/
def _get_stage_specific_guidance (stage : Int) : Guidance :=
  if stage ≤ 4 then foundationGuidance
  else if stage ≤ 7 then executionGuidance
  else hardeningGuidance

/-- Stage tier of the data model: foundation (≤4), execution (5-7),
hardening (≥8). -/
inductive StageTier where
  | foundation
  | execution
  | hardening
deriving DecidableEq

def stageTier (n : Int) : StageTier :=
  if n ≤ 4 then StageTier.foundation
  else if n ≤ 7 then StageTier.execution
  else StageTier.hardening

def guidanceForTier : StageTier → Guidance
  | StageTier.foundation => foundationGuidance
  | StageTier.execution => executionGuidance
  | StageTier.hardening => hardeningGuidance

/-- Local `test_count` of `generate_engineer_review_prompts`:
`tests['total'] if tests else '?'`. -/
def test_count (tests : Option TestMetrics) : List Char :=
  match tests with
  | some t => t.total
  | none => "?".toList

/-- Local `coverage_pct`: `f"{coverage}%" if coverage else '?%'`. -/
def coverage_pct (coverage : Option (List Char)) : List Char :=
  match coverage with
  | some c => c ++ pctStr
  | none => "?%".toList

def exceedsTok : List Char := "✅ Exceeds 90% target".toList
def belowTok : List Char := "⚠️ Below 90% target".toList

/-- Conditional token in the Test Coverage bullet of the review:
`'✅ Exceeds 90% target' if coverage and float(coverage) >= 90 else
'⚠️ Below 90% target'`; `none` models the `ValueError` from `float`. -/
def coverageVerdict (coverage : Option (List Char)) : Option (List Char) :=
  match coverage with
  | none => some belowTok
  | some c =>
    match parseDecimal? c with
    | none => none
    | some p => some (if 90 * 10 ^ p.2 ≤ p.1 then exceedsTok else belowTok)

def reviewSeg1 : List Char :=
  ("## 👔 Principal Engineer Review\n\n### What\x27s Going Well ✅\n\n**Review the following and identify 3-5 strengths:**\n\n- **Test Coverage**: ").toList
def reviewSeg2 : List Char := " tests, ".toList
def reviewSeg3 : List Char := " coverage ".toList
def reviewSeg4 : List Char :=
  ("\n- **Architecture**: [Review separation of concerns, SOLID principles, extensibility]\n- **Error Handling**: [Review error messages, validation, user experience]\n- **Performance**: [Review execution speed, scalability, resource usage]\n- **Code Quality**: [Review naming, documentation, maintainability]\n\n**Strengths identified:**\n1. [Specific observation about what\x27s working well]\n2. [Another strength with concrete example]\n3. [Third strength]\n\n### Potential Risks & Concerns ⚠️\n\n**Consider these common risks and add stage-specific concerns:**\n\n").toList
def reviewSeg5 : List Char :=
  ("\n\n**Risks identified:**\n1. [Specific risk with potential impact]\n2. [Another concern to address]\n3. [Optional: Third concern if applicable]\n\n### Pre-Next-Stage Considerations 🤔\n\n**Before proceeding to Stage ").toList
def reviewSeg6 : List Char := ", consider:**\n\n".toList
def reviewSeg7 : List Char :=
  ("\n\n**Action items for next stage:**\n1. [Specific preparation needed]\n2. [Dependency or integration concern]\n3. [Architecture or design consideration]\n\n**Recommendation:** [PROCEED / PROCEED WITH CAUTION / REVISIT BEFORE NEXT STAGE]\n\n**Rationale:**\n[1-2 sentences explaining why this stage is ready (or not) for the next stage. Consider: quality gates status, architecture stability, test coverage, known risks, tech debt level]\n\n**Example rationale:**\n> PROCEED - All mandatory gates passed, architecture is solid with clean separation of concerns, and code coverage exceeds targets. Address the [specific concern] during Stage ").toList
def reviewSeg8 : List Char :=
  " implementation. Monitor [specific metric] as complexity grows.\n".toList

/-- Embedding of `ProofGenerator.generate_engineer_review_prompts`; `none`
models the `ValueError` from `float(coverage)` in the Test Coverage bullet. -/
def generate_engineer_review_prompts (stage : Int)
    (tests : Option TestMetrics) (coverage : Option (List Char)) : Option (List Char) :=
  match coverageVerdict coverage with
  | none => none
  | some verdict =>
    let g := _get_stage_specific_guidance stage
    some (reviewSeg1 ++ test_count tests ++ reviewSeg2 ++ coverage_pct coverage
      ++ reviewSeg3 ++ verdict ++ reviewSeg4 ++ g.risks
      ++ reviewSeg5 ++ intToChars (stage + 1) ++ reviewSeg6 ++ g.next_stage
      ++ reviewSeg7 ++ intToChars (stage + 1) ++ reviewSeg8)

/-! ### Template synthesizer (`generate_proof_file`) -/

/-- Model of Python `s.replace(pat, rep)` for a nonempty `pat`: replace all
non-overlapping occurrences, scanning left to right and never rescanning the
inserted replacement.  Fuel-driven; each step consumes at least one character
of `s`, so `length + 1` fuel suffices.  (The script only ever calls this with
nonempty literal tokens.) -/
def replaceAllF (pat rep : List Char) : Nat → List Char → List Char
  | 0, s => s
  | _ + 1, [] => []
  | fuel + 1, c :: cs =>
    if pat.isPrefixOf (c :: cs) && !pat.isEmpty then
      rep ++ replaceAllF pat rep fuel ((c :: cs).drop pat.length)
    else
      c :: replaceAllF pat rep fuel cs

def replaceAll (pat rep s : List Char) : List Char := replaceAllF pat rep (s.length + 1) s

/-- Model of `re.sub(pattern, rep, s)` for a pattern embedded as a leftmost
span finder `find` (returning the start and one-past-the-end indices of the
leftmost match, both patterns below only produce nonempty matches): replace
the match and continue scanning after it.  The replacement strings contain no
backslashes, so `re.sub` inserts them literally.  Fuel-driven; every match is
nonempty, so `length + 1` fuel suffices. -/
def subAllF (find : List Char → Option (Nat × Nat)) (rep : List Char) :
    Nat → List Char → List Char
  | 0, s => s
  | fuel + 1, s =>
    match find s with
    | none => s
    | some pr => s.take pr.1 ++ rep ++ subAllF find rep fuel (s.drop pr.2)

def subAll (find : List Char → Option (Nat × Nat)) (rep s : List Char) : List Char :=
  subAllF find rep (s.length + 1) s

def metricLbl : List Char := "Metric".toList
def delivLbl : List Char := "Deliverables".toList

/-- Match `\|\s*lbl\s*\|` at the head of `s`, returning the number of
characters consumed.  Both greedy `\s*` runs are uniquely determined because
the following required character (`l`-of-`lbl`, `|`) is never whitespace. -/
def matchTableHeadHere (lbl : List Char) (s : List Char) : Option Nat :=
  match s with
  | '|' :: r1 =>
    let p1 := r1.span isPySpace
    match dropLit lbl p1.2 with
    | none => none
    | some r3 =>
      let p2 := r3.span isPySpace
      match p2.2 with
      | '|' :: _ => some (1 + p1.1.length + lbl.length + p2.1.length + 1)
      | _ => none
  | _ => none

/-- Lazy tail `.*?\|\s*Deliverables\s*\|.*?\n` (with `re.DOTALL`) of the
summary-region pattern: the first lazy run stops at the earliest offset where
`\|\s*Deliverables\s*\|` matches and a newline exists after it, the second at
the first newline after that; returns the total number of characters
consumed. -/
def findDelivNl : List Char → Option Nat
  | [] => none
  | c :: cs =>
    match matchTableHeadHere delivLbl (c :: cs) with
    | some len =>
      match ((c :: cs).drop len).findIdx? (· == '\n') with
      | some m => some (len + m + 1)
      | none => (findDelivNl cs).map (· + 1)
    | none => (findDelivNl cs).map (· + 1)

/-- Leftmost match span of
`re.sub(r'\|\s*Metric\s*\|.*?\|\s*Deliverables\s*\|.*?\n', ..., re.DOTALL)`:
earliest start where the header part matches and the lazy tail completes. -/
def findSummaryRegion : List Char → Option (Nat × Nat)
  | [] => none
  | c :: cs =>
    match matchTableHeadHere metricLbl (c :: cs) with
    | some len =>
      match findDelivNl ((c :: cs).drop len) with
      | some k => some (0, len + k)
      | none => (findSummaryRegion cs).map (fun pr => (pr.1 + 1, pr.2 + 1))
    | none => (findSummaryRegion cs).map (fun pr => (pr.1 + 1, pr.2 + 1))

def reviewHdrLit : List Char := "## 👔 Principal Engineer Review".toList
def integrationLit : List Char := "## 🔄 Integration Status".toList

/-- Leftmost match span of
`re.sub(r'## 👔 Principal Engineer Review.*?(?=## 🔄 Integration Status)',
..., re.DOTALL)`: the literal header, then a lazy run up to (but not
including) the first occurrence of the sentinel header, which the lookahead
leaves unconsumed. -/
def findReviewRegion : List Char → Option (Nat × Nat)
  | [] => none
  | c :: cs =>
    if reviewHdrLit.isPrefixOf (c :: cs) then
      match findOccur integrationLit ((c :: cs).drop reviewHdrLit.length) with
      | some k => some (0, reviewHdrLit.length + k)
      | none => (findReviewRegion cs).map (fun pr => (pr.1 + 1, pr.2 + 1))
    else
      (findReviewRegion cs).map (fun pr => (pr.1 + 1, pr.2 + 1))

def xTok : List Char := "[X]".toList
def dateTok : List Char := "[YYYY-MM-DD]".toList
def stageNameTok : List Char := "[Stage Name]".toList
def techTok : List Char := ".NET / TypeScript / Both".toList
def stageWord : List Char := "Stage ".toList

/-- Step 1 of `generate_proof_file`: the `replacements` dict applied with
`str.replace` in insertion order. -/
def applyReplacements (stage : Int) (tech : Tech) (today template : List Char) : List Char :=
  let t1 := replaceAll xTok (intToChars stage) template
  let t2 := replaceAll dateTok today t1
  let t3 := replaceAll stageNameTok (stageWord ++ intToChars stage) t2
  replaceAll techTok (techUpper tech) t3

def summarySubTail : List Char := "\n".toList
def reviewSubTail : List Char := "\n---\n\n".toList

/-- Embedding of `ProofGenerator.generate_proof_file` (the document text it
writes): literal token substitution, then the summary-table region
substitution, then the review region substitution.  `today` models
`datetime.now().strftime("%Y-%m-%d")`; the four trailing arguments are the
gate-file contents as in `generate_stage_summary`.  `none` models the
`ValueError` raised while composing the summary or review (the only
exceptions reachable in this fragment). -/
def generate_proof_file (stage : Int) (tech : Tech) (today template : List Char)
    (testsTxt covTxt buildTxt vulnTxt : Option (List Char)) : Option (List Char) :=
  let t1 := applyReplacements stage tech today template
  match generate_stage_summary tech testsTxt covTxt buildTxt vulnTxt with
  | none => none
  | some summaryTable =>
    match generate_engineer_review_prompts stage
        (extract_test_results tech testsTxt) (extract_coverage covTxt) with
    | none => none
    | some engineerReview =>
      let t2 := subAll findSummaryRegion (summaryTable ++ summarySubTail) t1
      let t3 := subAll findReviewRegion (engineerReview ++ reviewSubTail) t2
      some t3

/-! ### Helper lemmas and concrete inputs -/

theorem subAll_eq_self (find : List Char → Option (Nat × Nat)) (rep s : List Char)
    (h : find s = none) : subAll find rep s = s := by
  simp [subAll, subAllF, h]

def fiveStr : List Char := "5".toList
def threeStr : List Char := "3".toList
def tenStr : List Char := "10".toList
def dblZeroStr : List Char := "00".toList
def oneStr : List Char := "1".toList
def twoStr : List Char := "2".toList
def capVulnsLit : List Char := "0 Vulnerabilities".toList

/-! ### Claim C1 -/

def c1txt : List Char := "Passed: 5 Total: 5".toList

/-- Claim C1, counterexample: the artifact text `Passed: 5 Total: 5` contains
no `Failed: N` pattern, yet dotnet test extraction returns a fully populated
record (failed defaulted to `0`) instead of absence, refuting the claim that
all three patterns are required. -/
theorem c1_counterexample :
    searchLWD failedLit c1txt = none
    ∧ extract_test_results Tech.dotnet (some c1txt)
        = some ⟨fiveStr, fiveStr, zeroStr, passStatus⟩ := by
  exact ⟨by decide, by decide⟩

/-- Claim C1 (amended): dotnet test extraction returns a record exactly when
both the `Passed: N` and `Total: N` patterns are found; the `Failed: N`
pattern is optional, its absence being filled with the default string `0`. -/
theorem c1_presence_iff (content : List Char) :
    ((extract_test_results Tech.dotnet (some content)).isSome
      = ((searchLWD passedLit content).isSome && (searchLWD totalLit content).isSome))
    ∧ ∀ r, extract_test_results Tech.dotnet (some content) = some r →
        r.failed = (searchLWD failedLit content).getD zeroStr := by
  constructor
  · cases h1 : searchLWD passedLit content <;> cases h2 : searchLWD totalLit content <;>
      simp [extract_test_results, h1, h2]
  · intro r hr
    cases h1 : searchLWD passedLit content <;> cases h2 : searchLWD totalLit content <;>
      simp [extract_test_results, h1, h2] at hr
    rw [← hr]

/-- Claim C1, witness for the amended theorem at the counterexample text. -/
theorem c1_witness :
    (⟨fiveStr, fiveStr, zeroStr, passStatus⟩ : TestMetrics).failed
      = (searchLWD failedLit c1txt).getD zeroStr :=
  (c1_presence_iff c1txt).2 ⟨fiveStr, fiveStr, zeroStr, passStatus⟩ (by decide)

/-! ### Claim C2 -/

def c2Template : List Char := "Date: [YYYY-MM-DD]\n".toList
def c2DateA : List Char := "2024-01-01".toList
def c2DateB : List Char := "2024-01-02".toList

/-- Claim C2, counterexample: two runs with identical stage number, tech
stack, template and artifact texts but different wall-clock dates produce
different documents, because the `[YYYY-MM-DD]` token is substituted with
`datetime.now()`. -/
theorem c2_counterexample :
    generate_proof_file 1 Tech.dotnet c2DateA c2Template none none none none
      ≠ generate_proof_file 1 Tech.dotnet c2DateB c2Template none none none none := by
  decide

/-- Claim C2 (amended): each synthesis run is a pure function of its inputs
together with the current date: identical stage number, tech stack, date,
template and artifact texts give identical documents. -/
theorem c2_determinism (s1 s2 : Int) (t1 t2 : Tech) (d1 d2 m1 m2 : List Char)
    (a1 a2 b1 b2 g1 g2 v1 v2 : Option (List Char))
    (hs : s1 = s2) (ht : t1 = t2) (hd : d1 = d2) (hm : m1 = m2)
    (ha : a1 = a2) (hb : b1 = b2) (hg : g1 = g2) (hv : v1 = v2) :
    generate_proof_file s1 t1 d1 m1 a1 b1 g1 v1
      = generate_proof_file s2 t2 d2 m2 a2 b2 g2 v2 := by
  subst hs; subst ht; subst hd; subst hm; subst ha; subst hb; subst hg; subst hv; rfl

/-- Claim C2, witness for the amended theorem at concrete equal inputs. -/
theorem c2_witness :
    generate_proof_file 1 Tech.dotnet c2DateA c2Template none none none none
      = generate_proof_file 1 Tech.dotnet c2DateA c2Template none none none none :=
  c2_determinism 1 1 Tech.dotnet Tech.dotnet c2DateA c2DateA c2Template c2Template
    none none none none none none none none rfl rfl rfl rfl rfl rfl rfl rfl

/-! ### Claim C3 -/

/-- Claim C3 (confirmed): when neither the summary-table region pattern nor
the review region pattern matches the literal-substituted template (the texts
on which the source performs its two region searches), the synthesized
document is exactly the template with the literal token substitutions applied
and nothing else changed. -/
theorem c3_region_absence (stage : Int) (tech : Tech) (today template : List Char)
    (testsTxt covTxt buildTxt vulnTxt : Option (List Char))
    (hs : findSummaryRegion (applyReplacements stage tech today template) = none)
    (hr : findReviewRegion (applyReplacements stage tech today template) = none)
    (out : List Char)
    (hg : generate_proof_file stage tech today template testsTxt covTxt buildTxt vulnTxt
        = some out) :
    out = applyReplacements stage tech today template := by
  cases hsum : generate_stage_summary tech testsTxt covTxt buildTxt vulnTxt with
  | none =>
    have hnone : generate_proof_file stage tech today template testsTxt covTxt buildTxt vulnTxt
        = none := by
      unfold generate_proof_file
      rw [hsum]
    rw [hnone] at hg
    exact absurd hg (by simp)
  | some tbl =>
    cases hrev : generate_engineer_review_prompts stage
        (extract_test_results tech testsTxt) (extract_coverage covTxt) with
    | none =>
      have hnone : generate_proof_file stage tech today template testsTxt covTxt buildTxt vulnTxt
          = none := by
        unfold generate_proof_file
        rw [hsum, hrev]
      rw [hnone] at hg
      exact absurd hg (by simp)
    | some rev =>
      have hgen : generate_proof_file stage tech today template testsTxt covTxt buildTxt vulnTxt
          = some (subAll findReviewRegion (rev ++ reviewSubTail)
              (subAll findSummaryRegion (tbl ++ summarySubTail)
                (applyReplacements stage tech today template))) := by
        unfold generate_proof_file
        rw [hsum, hrev]
      rw [hgen] at hg
      rw [subAll_eq_self _ _ _ hs] at hg
      rw [subAll_eq_self _ _ _ hr] at hg
      exact (Option.some_inj.mp hg).symm

def c3wTemplate : List Char := "# Stage [X]\n".toList
def c3wToday : List Char := "2024-05-05".toList
def c3wOut : List Char := "# Stage 2\n".toList

/-- Claim C3, witness at a concrete template with no matching regions. -/
theorem c3_witness : c3wOut = applyReplacements 2 Tech.dotnet c3wToday c3wTemplate :=
  c3_region_absence 2 Tech.dotnet c3wToday c3wTemplate none none none none
    (by decide) (by decide) c3wOut (by decide)

/-! ### Claim C4 -/

def fabricatedRow : List Char := "| Test Failures | 0 | 0 | [STATUS] |".toList
def emptyTxt : List Char := []

/-- Claim C4, counterexample: with a present-but-unparseable tests artifact
(empty text) the test metric is an extraction miss, yet the generated summary
table carries the concrete value `0` — not an unresolved placeholder — in the
Actual cell of the Test Failures row, which depends on the missing metric. -/
theorem c4_counterexample :
    extract_test_results Tech.dotnet (some emptyTxt) = none
    ∧ (generate_stage_summary Tech.dotnet (some emptyTxt) none none none).isSome = true
    ∧ containsSub fabricatedRow
        ((generate_stage_summary Tech.dotnet (some emptyTxt) none none none).getD [])
        = true := by
  exact ⟨by decide, by decide, by decide⟩

/-- Claim C4 (amended): extraction misses are represented as absent and are
propagated into the summary table as unresolved placeholder tokens in the
value and status cells that depend on them — except the Actual cells of the
Test Failures and Build Warnings rows, which fall back to the literal
`0` when their metric is absent. -/
theorem c4_absent_cells :
    test_str none = nnPh
    ∧ test_status none = statusPh
    ∧ coverage_str none = xxPh
    ∧ coverage_status none = some statusPh
    ∧ build_str none = statusPh
    ∧ vuln_str none = nPh
    ∧ vuln_status none = statusPh
    ∧ failedCell none = zeroStr
    ∧ warningsCell none = zeroStr := by
  exact ⟨rfl, rfl, rfl, rfl, rfl, rfl, rfl, rfl, rfl⟩

/-! ### Claim C5 -/

theorem decimal_ge_iff (num k : Nat) :
    (90 * 10 ^ k ≤ num) ↔ (90 : ℚ) ≤ (num : ℚ) / 10 ^ k := by
  rw [le_div_iff₀ (by positivity)]
  exact_mod_cast Iff.rfl

/-- Claim C5 (confirmed): whenever the summary row statuses are produced at
all (composition raises `ValueError` when the captured coverage string has no
decimal value), the coverage status is pass iff a coverage value was extracted
and its value is at least 90, fail iff extracted and below 90, and the
unresolved placeholder iff coverage is absent. -/
theorem c5_coverage_status (covTxt : Option (List Char)) (st : List Char)
    (h : coverage_status (extract_coverage covTxt) = some st) :
    (st = passStatus ↔ ∃ c p, extract_coverage covTxt = some c
        ∧ parseDecimal? c = some p ∧ (90 : ℚ) ≤ (p.1 : ℚ) / 10 ^ p.2)
    ∧ (st = failStatus ↔ ∃ c p, extract_coverage covTxt = some c
        ∧ parseDecimal? c = some p ∧ (p.1 : ℚ) / 10 ^ p.2 < 90)
    ∧ (st = statusPh ↔ extract_coverage covTxt = none) := by
  cases hc : extract_coverage covTxt with
  | none =>
    rw [hc] at h
    have hst : st = statusPh := by simpa [coverage_status] using h.symm
    subst hst
    refine ⟨iff_of_false (by decide) ?_, iff_of_false (by decide) ?_, iff_of_true rfl rfl⟩
    · rintro ⟨c, p, hcc, -, -⟩
      exact Option.noConfusion hcc
    · rintro ⟨c, p, hcc, -, -⟩
      exact Option.noConfusion hcc
  | some c =>
    rw [hc] at h
    cases hp : parseDecimal? c with
    | none =>
      have hcs : coverage_status (some c) = none := by
        unfold coverage_status
        simp only [hp]
      rw [hcs] at h
      exact absurd h (by simp)
    | some p =>
      have hcs : coverage_status (some c)
          = some (if 90 * 10 ^ p.2 ≤ p.1 then passStatus else failStatus) := by
        unfold coverage_status
        simp only [hp]
      rw [hcs] at h
      have h2 : (if 90 * 10 ^ p.2 ≤ p.1 then passStatus else failStatus) = st :=
        Option.some_inj.mp h
      by_cases hge : 90 * 10 ^ p.2 ≤ p.1
      · rw [if_pos hge] at h2
        subst h2
        refine ⟨iff_of_true rfl ⟨c, p, rfl, hp, (decimal_ge_iff p.1 p.2).mp hge⟩,
          iff_of_false (by decide) ?_, iff_of_false (by decide) (by simp)⟩
        · rintro ⟨c2, p2, hcc, hpp, hlt⟩
          cases Option.some_inj.mp hcc
          rw [hp] at hpp
          cases Option.some_inj.mp hpp
          exact absurd ((decimal_ge_iff p.1 p.2).mp hge) (not_le.mpr hlt)
      · rw [if_neg hge] at h2
        subst h2
        refine ⟨iff_of_false (by decide) ?_,
          iff_of_true rfl ⟨c, p, rfl, hp, lt_of_not_le (mt (decimal_ge_iff p.1 p.2).mpr hge)⟩,
          iff_of_false (by decide) (by simp)⟩
        · rintro ⟨c2, p2, hcc, hpp, hgeq⟩
          cases Option.some_inj.mp hcc
          rw [hp] at hpp
          cases Option.some_inj.mp hpp
          exact hge ((decimal_ge_iff p.1 p.2).mpr hgeq)

def c5wtxt : List Char := "Line coverage: 92.5%".toList

/-- Claim C5, witness at the spec example text `Line coverage: 92.5%`. -/
theorem c5_witness :
    passStatus = passStatus ↔ ∃ c p, extract_coverage (some c5wtxt) = some c
      ∧ parseDecimal? c = some p ∧ (90 : ℚ) ≤ (p.1 : ℚ) / 10 ^ p.2 :=
  (c5_coverage_status (some c5wtxt) passStatus (by decide)).1

/-! ### Claim C6 -/

/-- Claim C6 (confirmed): the stage-tier classification is total over the
integers, the guidance function factors through it, and the boundaries are
exactly foundation ≤4, execution 5-7, hardening ≥8, with the four boundary
values of the claim. -/
theorem c6_stage_tier_total : ∀ n : Int,
    (_get_stage_specific_guidance n = guidanceForTier (stageTier n))
    ∧ (stageTier n = StageTier.foundation ↔ n ≤ 4)
    ∧ (stageTier n = StageTier.execution ↔ 5 ≤ n ∧ n ≤ 7)
    ∧ (stageTier n = StageTier.hardening ↔ 8 ≤ n)
    ∧ stageTier 4 = StageTier.foundation
    ∧ stageTier 5 = StageTier.execution
    ∧ stageTier 7 = StageTier.execution
    ∧ stageTier 8 = StageTier.hardening := by
  intro n
  refine ⟨?_, ?_, ?_, ?_, by decide, by decide, by decide, by decide⟩
  · unfold _get_stage_specific_guidance stageTier
    split_ifs <;> rfl
  · unfold stageTier
    split_ifs with h4 h7 <;> constructor <;> intro hx <;>
      first
        | rfl
        | omega
        | exact absurd hx (by decide)
  · unfold stageTier
    split_ifs with h4 h7 <;> constructor <;> intro hx <;>
      first
        | rfl
        | omega
        | exact absurd hx (by decide)
  · unfold stageTier
    split_ifs with h4 h7 <;> constructor <;> intro hx <;>
      first
        | rfl
        | omega
        | exact absurd hx (by decide)

/-! ### Claim C7 -/

def c7txt : List Char := "00 Warning(s) 0 Error(s)".toList

/-- Claim C7, counterexample: on a build log containing `00 Warning(s)` and
`0 Error(s)` the captured warning string is `00`, whose numeric warning count
is zero, yet the build status is fail: the source compares the captured
string against the literal `"0"`, not the numeric count. -/
theorem c7_counterexample :
    extract_build_info Tech.dotnet (some c7txt)
        = some ⟨some dblZeroStr, some zeroStr, failStatus⟩
    ∧ natOfDigits dblZeroStr = 0 := by
  exact ⟨by decide, by decide⟩

/-- Claim C7 (amended): dotnet build extraction is absent unless both the
warning-count and error-count patterns are present; when a record is
produced, its status is fail iff the captured warning-count string differs
from the literal `0` (so the error count is irrelevant, and a string of
leading zeros counts as fail even though its numeric value is zero). -/
theorem c7_build_status (content : List Char) :
    ((extract_build_info Tech.dotnet (some content)).isSome
      = ((searchDL warnLit content).isSome && (searchDL errLit content).isSome))
    ∧ ∀ b, extract_build_info Tech.dotnet (some content) = some b →
        (b.status = failStatus ↔ b.warnings ≠ some zeroStr) := by
  constructor
  · cases h1 : searchDL warnLit content <;> cases h2 : searchDL errLit content <;>
      simp [extract_build_info, h1, h2]
  · intro b hb
    cases h1 : searchDL warnLit content <;> cases h2 : searchDL errLit content <;>
      simp [extract_build_info, h1, h2] at hb
    rw [← hb]
    rename_i w e
    by_cases hw : w = zeroStr
    · subst hw
      simp <;> decide
    · simp [hw] <;> decide

def c7wtxt : List Char := "2 Warning(s) 0 Error(s)".toList
def c7wrec : BuildMetrics := ⟨some twoStr, some zeroStr, failStatus⟩

/-- Claim C7, witness for the amended theorem at the spec example text. -/
theorem c7_witness : c7wrec.status = failStatus ↔ c7wrec.warnings ≠ some zeroStr :=
  (c7_build_status c7wtxt).2 c7wrec (by decide)

/-! ### Claim C8 -/

/-- Claim C8 (confirmed): any vulnerability artifact containing the phrase
`0 vulnerabilities` extracts the count `0`, regardless of any severity tokens
elsewhere in the text. -/
theorem c8_all_clear (content : List Char)
    (h : containsSub zeroVulnsLit content = true) :
    extract_vulnerabilities (some content) = some zeroStr := by
  simp [extract_vulnerabilities, h]

def c8txt : List Char := "Found 0 vulnerabilities; HIGH CRITICAL listed".toList

/-- Claim C8, witness on a text containing both the all-clear phrase and
severity tokens. -/
theorem c8_witness :
    containsSub zeroVulnsLit c8txt = true
    ∧ countSeverity c8txt = 2
    ∧ extract_vulnerabilities (some c8txt) = some zeroStr :=
  ⟨by decide, by decide, c8_all_clear c8txt (by decide)⟩

/-! ### Claim C9 -/

def c9txt : List Char := "Passed: 3 Total: 10 Failed: 00".toList

/-- Claim C9, counterexample: on `Passed: 3 Total: 10 Failed: 00` the
extracted record has failed = 00, which as a number is 0 and differs from
total − passed = 7, yet the status is fail: both the arithmetic invariant and
the numeric status rule of the claim are violated (the source compares the
failed string against the literal `"0"`). -/
theorem c9_counterexample :
    extract_test_results Tech.dotnet (some c9txt)
        = some ⟨threeStr, tenStr, dblZeroStr, failStatus⟩
    ∧ natOfDigits dblZeroStr ≠ natOfDigits tenStr - natOfDigits threeStr
    ∧ natOfDigits dblZeroStr = 0 := by
  exact ⟨by decide, by decide, by decide⟩

/-- Claim C9 (amended): every test-metrics record produced by either variant
has status fail iff its failed field differs from the literal string `0`
(failed = total − passed is not guaranteed: all three counts are captured
independently from the text). -/
theorem c9_status_iff (tech : Tech) (content : List Char) (r : TestMetrics)
    (h : extract_test_results tech (some content) = some r) :
    r.status = failStatus ↔ r.failed ≠ zeroStr := by
  cases tech with
  | dotnet =>
    cases h1 : searchLWD passedLit content <;> cases h2 : searchLWD totalLit content <;>
      simp [extract_test_results, h1, h2] at h
    rw [← h]
    by_cases hf : (searchLWD failedLit content).getD zeroStr = zeroStr
    · simp [hf] <;> decide
    · simp [hf] <;> decide
  | typescript =>
    cases h1 : scanFirst matchTestsBHere content <;>
      simp [extract_test_results, h1] at h
    rw [← h]
    simp
    decide

def c9wtxt : List Char := "Passed: 1 Total: 2 Failed: 1".toList
def c9wrec : TestMetrics := ⟨oneStr, twoStr, oneStr, failStatus⟩

/-- Claim C9, witness for the amended theorem. -/
theorem c9_witness : c9wrec.status = failStatus ↔ c9wrec.failed ≠ zeroStr :=
  c9_status_iff Tech.dotnet c9wtxt c9wrec (by decide)

/-! ### Claim C10 -/

/-- Claim C10 (confirmed): the two all-clear checks differ in case handling —
`no vulnerable packages` is matched against the lowercased text while
`0 vulnerabilities` is matched case-sensitively — so a text whose only
all-clear phrase is the capitalized `0 Vulnerabilities` falls through to
severity-token counting. -/
theorem c10_case_sensitivity (content : List Char)
    (h1 : containsSub capVulnsLit content = true)
    (h2 : containsSub zeroVulnsLit content = false)
    (h3 : containsSub noVulnPkgsLit (lowerStr content) = false) :
    extract_vulnerabilities (some content) = some (natToChars (countSeverity content)) := by
  simp [extract_vulnerabilities, h2, h3]

def c10txt : List Char := "0 Vulnerabilities: 1 HIGH".toList

/-- Claim C10, witness: the capitalized phrase does not trigger the zero
sentinel and the single severity token is counted. -/
theorem c10_witness :
    extract_vulnerabilities (some c10txt) = some (natToChars (countSeverity c10txt))
    ∧ countSeverity c10txt = 1 :=
  ⟨c10_case_sensitivity c10txt (by decide) (by decide) (by decide), by decide⟩

end ProofGen
